import Mathlib

/-!
Verification of the Tickets-Plus ticket lifecycle engine.

This file gives a shallow embedding of the data model and the operations of
the repository (the `tickets_plus` package: `cogs/events.py`, `cogs/staff.py`,
`cogs/settings.py`, `cogs/routines.py`, `database/layer.py`,
`database/models.py`) and proves or refutes the frozen claims about it.

Conventions:
- discord snowflake IDs are `Nat`;
- timestamps and durations are `Int` seconds (the code's `datetime`/
  `timedelta` values, at second resolution - all durations appearing in the
  claims are whole minutes); the current wall-clock time (`utcnow()`) is
  always passed in as an explicit parameter;
- external library functions of the platform layer (`string.Template
  .safe_substitute`, `discord.utils.escape_mentions`, role/guild/member
  resolution) are abstracted as function parameters; database rows become
  structures and tables become lists kept in insertion order, matching the
  get-or-create discipline of `database/layer.py`.
-/

namespace TicketsPlus

/-! ## Data model (`database/models.py`) -/

/-- Row of the `ticket_types` table (`models.TicketType`).  The source's
`prefix` column is named `pfx` here because `prefix` is a reserved word in
Lean. -/
structure TicketType where
  pfx : String
  guild_id : Nat
  comping : Bool
  comaccs : Bool
  strpbuttns : Bool
  ignore : Bool
deriving DecidableEq, Repr

/-- `models.TicketType.default` (models.py lines 330-342): the built-in
preset used when no configured type matches. -/
def TicketType.default : TicketType :=
  { pfx := "", guild_id := 0, comping := true, comaccs := true,
    strpbuttns := true, ignore := false }

/-- Row of the `general_configs` table (`models.Guild`).  Nullable interval
and role columns are `Option`; `legacy_threads` is deliberately NOT a field:
the source model defines no such column (see `register`). -/
structure GuildRow where
  guild_id : Nat
  open_message : String
  staff_team_name : String
  first_autoclose : Option Int
  any_autoclose : Option Int
  warn_autoclose : Option Int
  support_block : Option Nat
  helping_block : Option Nat
  msg_discovery : Bool
  strip_buttons : Bool
  strip_roles : Bool
  integrated : Bool
deriving DecidableEq, Repr

/-- Row of the `tickets` table (`models.Ticket`). -/
structure Ticket where
  channel_id : Nat
  guild_id : Nat
  user_id : Option Nat
  date_created : Int
  last_response : Int
  staff_note_thread : Option Nat
  anonymous : Bool
  notified : Bool
deriving DecidableEq, Repr

/-- Row of the `staff_roles` table (`models.StaffRole`): primary key is the
globally unique role ID. -/
structure StaffRoleRow where
  role_id : Nat
  guild_id : Nat
deriving DecidableEq, Repr

/-- Row shape shared by `models.ObserversRole`, `models.CommunityRole` and
`models.CommunityPing` (each keyed by the globally unique role ID). -/
structure RoleRow where
  role_id : Nat
  guild_id : Nat
deriving DecidableEq, Repr

/-- Row of the `ticket_users` table (`models.TicketBot`): a registered
ticket-creator account, keyed by (user, guild). -/
structure TicketBotRow where
  user_id : Nat
  guild_id : Nat
deriving DecidableEq, Repr

/-- Row of the `members` table (`models.Member`): per-tenant penalty status
(0 = none, 1 = support-blocked, 2 = helping-blocked) and its optional
expiry (`status_till` is NULL for a permanent penalty). -/
structure MemberRow where
  user_id : Nat
  guild_id : Nat
  status : Nat
  status_till : Option Int
deriving DecidableEq, Repr

/-! ## Ticket-type resolution (`cogs/events.py` lines 69-75)

`Events.ticket_creation` starts from `TicketType.default()` and walks the
configured types in iteration order, overwriting the chosen type whenever
the channel name starts with that type's prefix - so the LAST match in
iteration order wins. -/

/-- Python's `str.startswith`: the candidate is a character-prefix of the
string. -/
def startswith (s pre : String) : Bool := pre.data.isPrefixOf s.data

/-- The prefix-matching loop of `Events.ticket_creation`:
`ticket_type = default; for ttype in ttypes: if name.startswith(ttype.prefix):
ticket_type = ttype`. -/
def resolveTicketType (ttypes : List TicketType) (channelName : String) : TicketType :=
  ttypes.foldl (fun acc tt => if startswith channelName tt.pfx then tt else acc)
    TicketType.default

/-! ## Auto-close topic update (`cogs/events.py` lines 238-273)

`Events.update_autoclose` edits the channel topic's `<t:...:R>` deadline
marker.  The throttle condition in the source is
`ticket.last_response - datetime.datetime.utcnow() >= timedelta(minutes=5)`
(note the operand order).  The topic rewrite uses
`re.sub(r"<t:[0-9]*?:R>", new_stamp, topic)`, replacing every
non-overlapping occurrence of a `<t:`digits`:R>` marker. -/

/-- Match one `<t:` digits `:R>` marker at the head of the character list,
returning the remainder after the marker. -/
def matchMarker : List Char → Option (List Char)
  | '<' :: 't' :: ':' :: rest =>
    match rest.dropWhile (fun ch => ch.isDigit) with
    | ':' :: 'R' :: '>' :: tail => some tail
    | _ => none
  | _ => none

theorem dropWhile_length_le {α : Type} (p : α → Bool) (l : List α) :
    (l.dropWhile p).length ≤ l.length := by
  induction l with
  | nil => simp
  | cons a l ih =>
    rw [List.dropWhile_cons]
    split
    · exact Nat.le_trans ih (Nat.le_succ _)
    · exact Nat.le_refl _

theorem matchMarker_length (l tail : List Char) (h : matchMarker l = some tail) :
    tail.length + 3 ≤ l.length := by
  unfold matchMarker at h
  split at h
  · rename_i rest
    have hlen : (rest.dropWhile (fun ch => ch.isDigit)).length ≤ rest.length :=
      dropWhile_length_le _ _
    split at h
    · rename_i t1 hdw
      rw [hdw] at hlen
      cases h
      simp only [List.length_cons] at hlen ⊢
      omega
    · exact absurd h (by simp)
  · exact absurd h (by simp)

/-- The `re.sub` scan of `update_autoclose`: walk the string left to right;
at each position try to match a deadline marker, and if it matches emit the
replacement and continue after the marker, otherwise keep the character. -/
def substMarkersAux (repl : List Char) : List Char → List Char
  | [] => []
  | c :: rest =>
    match hm : matchMarker (c :: rest) with
    | some tail => repl ++ substMarkersAux repl tail
    | none => c :: substMarkersAux repl rest
termination_by l => l.length
decreasing_by
  · have := matchMarker_length _ _ hm
    simp only [List.length_cons] at this ⊢
    omega
  · simp only [List.length_cons]
    omega

/-- `re.sub(r"<t:[0-9]*?:R>", repl, s)` as used by `update_autoclose`. -/
def substMarkers (repl s : String) : String :=
  String.mk (substMarkersAux repl.data s.data)

/-- Result of one `update_autoclose` invocation: the topic edits issued (the
platform `chan.edit(topic=...)` calls), the ticket row afterwards, and
whether the session committed. -/
structure AutocloseResult where
  topicEdits : List String
  ticket : Ticket
  committed : Bool
deriving DecidableEq, Repr

/-- `Events.update_autoclose` (events.py lines 238-273).  `now1` is the
`utcnow()` of the throttle comparison (line 253) and `now2` the `utcnow()`
stored into `last_response` (line 272).  Python truthiness of
`guild.any_autoclose` makes both `None` and a zero interval skip the body. -/
def update_autoclose (msgCreatedAt : Int) (chanName : String)
    (chanTopic : Option String) (ticket : Ticket) (guild : GuildRow)
    (now1 now2 : Int) : AutocloseResult :=
  match guild.any_autoclose with
  | none => { topicEdits := [], ticket := ticket, committed := false }
  | some ac =>
    if ac = 0 then { topicEdits := [], ticket := ticket, committed := false }
    else
      -- time_since_update = ticket.last_response - utcnow()  (source order)
      if 300 ≤ ticket.last_response - now1 then
        let stamp := "<t:" ++ toString (msgCreatedAt + ac) ++ ":R>"
        let crrnt :=
          match chanTopic with
          | none => "Ticket: " ++ chanName ++ "\nCloses: " ++ stamp
          | some t => substMarkers stamp t
        { topicEdits := [crrnt],
          ticket := { ticket with last_response := now2 }, committed := true }
      else { topicEdits := [], ticket := ticket, committed := false }

/-! ## Ticket store and `get_ticket` (`database/layer.py` lines 132-161,
339-387)

`OnlineConfig.get_guild` auto-creates the guild row; `fetch_ticket` is a
pure primary-key lookup; `get_ticket` is get-or-create returning a
`wasCreated` flag.  Tables are lists in insertion order; a primary-key
`session.get` is the first (unique) match. -/

/-- The slice of the session state needed by `get_ticket`: the set of known
guild IDs and the `tickets` table. -/
structure TicketStore where
  guilds : List Nat
  tickets : List Ticket
deriving DecidableEq, Repr

/-- `OnlineConfig.get_guild` restricted to its effect on the set of known
guilds: insert the ID if absent (row creation with default values). -/
def add_guild (s : TicketStore) (gid : Nat) : TicketStore :=
  if gid ∈ s.guilds then s else { s with guilds := s.guilds ++ [gid] }

/-- `OnlineConfig.fetch_ticket`: pure primary-key lookup, no creation. -/
def fetch_ticket (s : TicketStore) (channel_id : Nat) : Option Ticket :=
  s.tickets.find? (fun t => t.channel_id == channel_id)

/-- The ticket row staged by `get_ticket` when the channel is new
(`date_created`/`last_response` take the database-side `UTCnow()`, passed
as `now`). -/
def newTicketRow (channel_id guild_id : Nat) (user_id staff_note : Option Nat)
    (now : Int) : Ticket :=
  { channel_id := channel_id, guild_id := guild_id, user_id := user_id,
    date_created := now, last_response := now,
    staff_note_thread := staff_note, anonymous := false, notified := false }

/-- `OnlineConfig.get_ticket` (layer.py lines 356-387): ensure the guild
exists, then return the existing ticket row for the channel, or stage a new
one built from the arguments. -/
def get_ticket (s : TicketStore) (channel_id guild_id : Nat)
    (user_id : Option Nat) (staff_note : Option Nat) (now : Int) :
    Bool × Ticket × TicketStore :=
  let s1 := add_guild s guild_id
  match s1.tickets.find? (fun t => t.channel_id == channel_id) with
  | some t => (false, t, s1)
  | none =>
    let t := newTicketRow channel_id guild_id user_id staff_note now
    (true, t, { s1 with tickets := s1.tickets ++ [t] })

/-- The arguments of one `get_ticket` call, for iterating call sequences. -/
structure GetTicketArgs where
  channel_id : Nat
  guild_id : Nat
  user_id : Option Nat
  staff_note : Option Nat
  now : Int
deriving DecidableEq, Repr

/-- Run a sequence of `get_ticket` calls, keeping only the store. -/
def applyCalls (s : TicketStore) : List GetTicketArgs → TicketStore
  | [] => s
  | a :: rest =>
    applyCalls (get_ticket s a.channel_id a.guild_id a.user_id a.staff_note a.now).2.2 rest

/-! ## Role-list toggles (`cogs/settings.py` + `database/layer.py`)

The five toggle commands (`change_staff`, `change_observers`,
`change_community_roles`, `change_community_ping_roles`, `change_tracked`)
all follow the same shape over their own table: `new, row =
get_<entity>(key, guild)`; when `new` is false the row is deleted; the
session is committed either way.  The entity key is the role ID for the
four role lists and the (user, guild) pair for the ticket-creator list, so
the membership state is a list over an abstract key type with decidable
equality. -/

/-- The get-or-create half (e.g. `OnlineConfig.get_staff_role`, layer.py
lines 488-511): auto-create the guild, then look the entry up by key and
stage it when absent.  Returns the `wasCreated` flag and the updated
(guild-set, membership) state. -/
def toggle_get_or_create {κ : Type} [DecidableEq κ] (guilds : List Nat)
    (entries : List κ) (gid : Nat) (k : κ) : Bool × List Nat × List κ :=
  let guilds1 := if gid ∈ guilds then guilds else guilds ++ [gid]
  if k ∈ entries then (false, guilds1, entries)
  else (true, guilds1, entries ++ [k])

/-- One toggle-command invocation (e.g. `Settings.change_staff`, settings.py
lines 106-135): get-or-create, then delete when the entry already existed;
commit; report "added" or "removed". -/
def toggle_role {κ : Type} [DecidableEq κ] (guilds : List Nat)
    (entries : List κ) (gid : Nat) (k : κ) : String × List Nat × List κ :=
  let r := toggle_get_or_create guilds entries gid k
  if r.1 then ("added", r.2.1, r.2.2)
  else ("removed", r.2.1, r.2.2.erase k)

/-- Iterate the toggle `n` times with the same key. -/
def iterate_toggle {κ : Type} [DecidableEq κ] :
    Nat → List Nat → List κ → Nat → κ → List Nat × List κ
  | 0, guilds, entries, _, _ => (guilds, entries)
  | Nat.succ n, guilds, entries, gid, k =>
    let r := toggle_role guilds entries gid k
    iterate_toggle n r.2.1 r.2.2 gid k

/-! ## Session / unit of work (`database/layer.py` lines 77-130)

`OnlineConfig.__aexit__` rolls back when an exception type is present, then
always closes; `commit` persists the staged state; nothing commits
implicitly.  A session is a pair of the persistent (committed) store and
the staged view; a unit of work is a list of operations, possibly cut short
by an error. -/

/-- Session state over an abstract store type: the committed database state
and the session's staged view. -/
structure SessionState (σ : Type) where
  db : σ
  staged : σ

/-- One operation of a unit of work: stage a mutation, or `commit`. -/
inductive SessionOp (σ : Type) where
  | mutate (f : σ → σ)
  | commit

/-- Whether an operation is the explicit `commit()`. -/
def isCommitOp {σ : Type} : SessionOp σ → Bool
  | SessionOp.commit => true
  | SessionOp.mutate _ => false

/-- Execute one operation: mutations touch only the staged view;
`OnlineConfig.commit` makes the staged view persistent. -/
def runOp {σ : Type} (s : SessionState σ) : SessionOp σ → SessionState σ
  | SessionOp.mutate f => { s with staged := f s.staged }
  | SessionOp.commit => { db := s.staged, staged := s.staged }

/-- Execute a list of operations in order. -/
def runOps {σ : Type} (s : SessionState σ) (ops : List (SessionOp σ)) :
    SessionState σ :=
  ops.foldl runOp s

/-- `OnlineConfig.rollback`: discard all non-committed changes. -/
def rollback {σ : Type} (s : SessionState σ) : SessionState σ :=
  { s with staged := s.db }

/-- `OnlineConfig.close`: the session ends; what persists is the committed
database state. -/
def close_session {σ : Type} (s : SessionState σ) : σ := s.db

/-- `OnlineConfig.__aexit__` (layer.py lines 77-93): roll back if an
exception is present, then close regardless. -/
def aexit {σ : Type} (errored : Bool) (s : SessionState σ) : σ :=
  close_session (if errored then rollback s else s)

/-- One unit of work against an initial persistent store `db0`: run the
body's operations; `err = some k` means the body raised after its first `k`
operations (the `async with` exit then sees the exception), `err = none` is
a normal exit.  Returns the persistent store after the session closes. -/
def runUnit {σ : Type} (db0 : σ) (ops : List (SessionOp σ)) (err : Option Nat) : σ :=
  match err with
  | none => aexit false (runOps ⟨db0, db0⟩ ops)
  | some k => aexit true (runOps ⟨db0, db0⟩ (ops.take k))

/-! ## The register command (`cogs/staff.py` lines 171-217)

`StaffCmmd.register` runs inside a session; on any raised exception the
`async with` exit rolls back before closing, so an error leaves the
persistent store untouched.  When no `thread` argument is supplied the
source reads `guild.legacy_threads` - but the `Guild` model
(`database/models.py`) defines no `legacy_threads` column, so that read
raises `AttributeError` before the already-a-ticket check is reached.  When
a thread is supplied, the source calls
`get_ticket(ctx.channel.id, ctx.guild_id, thread.id)`, passing the thread
ID positionally as `user_id` (third parameter). -/

/-- Outcome of a `register` invocation. -/
inductive RegOutcome where
  | ok
  | invalidLocationAlreadyTicket
  | invalidLocationSpace
  | attributeErrorLegacyThreads
deriving DecidableEq, Repr

/-- `StaffCmmd.register`.  Returns the outcome and the persistent store
after the session closes (rolled back on every error path, committed on
success). -/
def register (s : TicketStore) (channel_id guild_id : Nat)
    (thread : Option Nat) (isTextChannel : Bool) (now : Int) :
    RegOutcome × TicketStore :=
  if isTextChannel then
    let s0 := add_guild s guild_id
    match thread with
    | none =>
      -- `guild.legacy_threads`: no such column on the Guild model, so the
      -- attribute read raises; the session rolls back and closes.
      (RegOutcome.attributeErrorLegacyThreads, s)
    | some th =>
      let r := get_ticket s0 channel_id guild_id (some th) none now
      if r.1 then (RegOutcome.ok, r.2.2)
      else
        -- `raise InvalidLocation("This channel is already a ticket.")`:
        -- the session rolls back and closes, nothing was committed.
        (RegOutcome.invalidLocationAlreadyTicket, s)
  else (RegOutcome.invalidLocationSpace, s)

/-! ## Anonymous relay (`cogs/events.py` lines 204-236)

`Events.handle_anon`: in an anonymous ticket, a message from anyone other
than the ticket's originating user is checked against the tenant's staff
roles (resolving each configured role on the platform and testing it
against the author's role list); a staff author's message is re-sent as
`**<staff team name>:** <escaped content>` with the original embeds, and
the original message is deleted.  `discord.utils.escape_mentions` is an
external library function and is abstracted as the parameter `esc`. -/

/-- Platform side effects of `handle_anon`.  Embeds are opaque payloads
carried through unchanged, modelled as `Nat` handles. -/
inductive AnonAction where
  | send (content : String) (embeds : List Nat)
  | deleteOriginal
deriving DecidableEq, Repr

/-- The staff-membership loop of `handle_anon` (events.py lines 220-228):
some configured staff role resolves on the platform (`getRole`) to a role
held by the author.  An unresolvable role (`none`) never matches, exactly
as `None in message.author.roles` is false. -/
def holds_staff_role (getRole : Nat → Option Nat) (authorRoles : List Nat)
    (staffRoles : List StaffRoleRow) : Bool :=
  staffRoles.any (fun r =>
    match getRole r.role_id with
    | some pr => authorRoles.contains pr
    | none => false)

/-- `Events.handle_anon` (events.py lines 204-236), returning the platform
actions it issues. -/
def handle_anon (esc : String → String) (getRole : Nat → Option Nat)
    (authorId : Nat) (authorRoles : List Nat) (content : String)
    (embeds : List Nat) (ticket : Ticket) (staffRoles : List StaffRoleRow)
    (guild : GuildRow) : List AnonAction :=
  if ticket.anonymous then
    if ticket.user_id = some authorId then []
    else if holds_staff_role getRole authorRoles staffRoles then
      [AnonAction.send ("**" ++ guild.staff_team_name ++ ":** " ++ esc content)
         embeds,
       AnonAction.deleteOriginal]
    else []
  else []

/-! ## Ticket creation workflow (`cogs/events.py` lines 57-152)

`Events.ticket_creation` runs after the dispatcher guards (external
integration off, creator is a registered ticket bot).  The full store
needed by it: guild rows, tickets, registered ticket-creator accounts, the
observer/community/community-ping role lists and the ticket types. -/

/-- The tenant store visible to the creation workflow. -/
structure Store where
  guilds : List GuildRow
  tickets : List Ticket
  ticket_bots : List TicketBotRow
  observers_roles : List RoleRow
  community_roles : List RoleRow
  community_pings : List RoleRow
  ticket_types : List TicketType
deriving DecidableEq, Repr

/-- `OnlineConfig.check_ticket_bot`: pure existence check by
(user, guild). -/
def check_ticket_bot (s : Store) (user_id guild_id : Nat) : Bool :=
  s.ticket_bots.any (fun b => b.user_id == user_id && b.guild_id == guild_id)

/-- `channel.mention`: the `<#id>` rendering used by the open-message
template substitution. -/
def channelMention (cid : Nat) : String := "<#" ++ toString cid ++ ">"

/-- The silent-ping message body: `" ".join(f"<@&{role_id}>" for role in
roles)`. -/
def mentionsString (roles : List Nat) : String :=
  String.intercalate " " (roles.map (fun r => "<@&" ++ toString r ++ ">"))

/-- A message already in the channel history, as read by the
button-stripping scan (author, message ID, embeds as opaque handles). -/
structure HistMsg where
  author_id : Nat
  msg_id : Nat
  embeds : List Nat
deriving DecidableEq, Repr

/-- Platform side effects of the creation workflow, in issue order. -/
inductive CreateEffect where
  | createThread (name : String)
  | threadSend (content : String)
  | threadSilentPingDelete
  | channelSend (content : String)
  | channelSendEmbeds (embeds : List Nat)
  | channelSilentPingDelete
  | deleteMessage (msg_id : Nat)
  | setPermissionDeny (role_id : Nat)
  | setPermissionAllow (role_id : Nat)
  | editTopic (topic : String)
deriving DecidableEq, Repr

/-- The channel-topic summary built at the end of `ticket_creation`
(events.py lines 140-149); `user.mention` is `<@id>` and the deadline uses
the channel creation time plus `first_autoclose` (truthiness: a `None` or
zero interval adds nothing). -/
def creationTopic (chanName : String) (chanCreated : Int) (user : Option Nat)
    (first_autoclose : Option Int) : String :=
  let base := "Ticket " ++ chanName ++ "\nOpened at <t:" ++
    toString chanCreated ++ ":f>"
  let base :=
    match user with
    | some uid => base ++ "\nOpened by <@" ++ toString uid ++ ">"
    | none => base
  match first_autoclose with
  | some fa =>
    if fa = 0 then base
    else
      base ++ "\nCloses <t:" ++ toString (chanCreated + fa) ++ ":R>" ++
        "\nIf no one responds, the ticket will be closed automatically. " ++
        "Thank you for your patience!"
  | none => base

/-- `Events.ticket_creation` (events.py lines 57-152).  `templateSub`
abstracts `string.Template(...).safe_substitute` (applied to the open
message and the channel mention); `gldRoles` is the set of role IDs that
resolve on the platform guild (`gld.get_role`); `thread_id` is the
platform-assigned ID of the staff-notes thread; `history2` is the channel
history oldest-first as scanned by the button stripper; `now` is the
database-side `UTCnow()`.  Returns the effect trace, the persistent store
after the session closes, and whether the session committed. -/
def ticket_creation (templateSub : String → String → String) (s : Store)
    (guild : GuildRow) (gldRoles : List Nat) (chanId : Nat) (chanName : String)
    (chanCreated : Int) (user : Option Nat) (thread_id : Nat)
    (history2 : List HistMsg) (now : Int) :
    List CreateEffect × Store × Bool :=
  let ttypes := s.ticket_types.filter (fun tt => tt.guild_id == guild.guild_id)
  let ticket_type := resolveTicketType ttypes chanName
  if ticket_type.ignore then
    -- early return: the session closes without a commit, nothing persists
    ([], s, false)
  else
    let effs0 := [CreateEffect.createThread "Staff Notes",
      CreateEffect.threadSend (templateSub guild.open_message (channelMention chanId))]
    -- `get_ticket(channel.id, gld.id, user_id, nts_thrd.id)` staged
    let newTicket : Ticket :=
      { channel_id := chanId, guild_id := guild.guild_id, user_id := user,
        date_created := now, last_response := now,
        staff_note_thread := some thread_id, anonymous := false,
        notified := false }
    let tickets1 :=
      if s.tickets.any (fun t => t.channel_id == chanId) then s.tickets
      else s.tickets ++ [newTicket]
    -- observers silent ping
    let obs := s.observers_roles.filter (fun r => r.guild_id == guild.guild_id)
    let effs1 :=
      if !obs.isEmpty then
        [CreateEffect.threadSend (mentionsString (obs.map RoleRow.role_id)),
         CreateEffect.threadSilentPingDelete]
      else []
    -- helping-block deny overwrite, clearing a stale role reference
    let hbStep : List CreateEffect × GuildRow :=
      match guild.helping_block with
      | some hb =>
        if hb ≠ 0 then
          if hb ∈ gldRoles then ([CreateEffect.setPermissionDeny hb], guild)
          else ([], { guild with helping_block := none })
        else ([], guild)
      | none => ([], guild)
    let effs2 := hbStep.1
    let guild1 := hbStep.2
    -- community access overwrites (skipping unresolvable roles)
    let comm := s.community_roles.filter (fun r => r.guild_id == guild.guild_id)
    let effs3 :=
      if !comm.isEmpty && ticket_type.comaccs then
        comm.filterMap (fun r =>
          if r.role_id ∈ gldRoles then some (CreateEffect.setPermissionAllow r.role_id)
          else none)
      else []
    -- community-ping silent ping
    let pings := s.community_pings.filter (fun r => r.guild_id == guild.guild_id)
    let effs4 :=
      if !pings.isEmpty && ticket_type.comping then
        [CreateEffect.channelSend (mentionsString (pings.map RoleRow.role_id)),
         CreateEffect.channelSilentPingDelete]
      else []
    -- button stripping over the first two history messages
    let effs5 :=
      if guild.strip_buttons && ticket_type.strpbuttns then
        (history2.take 2).foldl (fun acc m =>
          if check_ticket_bot s m.author_id guild.guild_id then
            acc ++ [CreateEffect.channelSendEmbeds m.embeds,
              CreateEffect.deleteMessage m.msg_id]
          else acc) []
      else []
    let effs6 := [CreateEffect.editTopic
      (creationTopic chanName chanCreated user guild.first_autoclose)]
    -- commit: the staged ticket row and the (possibly cleared) guild row persist
    let guilds1 := s.guilds.map (fun g => if g.guild_id == guild.guild_id then guild1 else g)
    (effs0 ++ effs1 ++ effs2 ++ effs3 ++ effs4 ++ effs5 ++ effs6,
     { s with tickets := tickets1, guilds := guilds1 }, true)

/-! ## Penalty-expiry sweep (`cogs/routines.py` lines 62-89,
`database/layer.py` lines 221-232)

`OnlineConfig.get_expired_members` selects members with
`status_till <= utcnow()`; SQL three-valued logic means a NULL
`status_till` (permanent penalty) is never selected.  `Routines
.clean_status` resolves the platform guild and member (skipping on
failure), issues one `remove_roles` call per member covering the configured
helping-block and support-block roles, resets the member, and commits once
per tick. -/

/-- The platform environment of the sweep: guild and member resolution and
role lookup (`bot.get_guild`, `guild.get_member`, `guild.get_role`), plus
the parent guild row of each member (guaranteed by the foreign key). -/
structure SweepEnv where
  resolveGuild : Nat → Bool
  resolveMember : Nat → Nat → Bool
  getRole : Nat → Nat → Option Nat
  guildCfg : Nat → GuildRow

/-- The `status_till <= time` selection test of `get_expired_members`:
false on NULL (SQL comparison with NULL is unknown). -/
def memberExpired (now : Int) (m : MemberRow) : Bool :=
  match m.status_till with
  | some t => decide (t ≤ now)
  | none => false

/-- `OnlineConfig.get_expired_members` (layer.py lines 221-232). -/
def get_expired_members (members : List MemberRow) (now : Int) : List MemberRow :=
  members.filter (memberExpired now)

/-- Whether `clean_status` can resolve the member on the platform side
(both `bot.get_guild` and `guild.get_member` succeed). -/
def memberResolvable (env : SweepEnv) (m : MemberRow) : Bool :=
  env.resolveGuild m.guild_id && env.resolveMember m.guild_id m.user_id

/-- The `rles` list built at routines.py lines 81-85 and then passed to
`remove_roles(*rles)`: the raw `guild.get_role` result for the configured
(truthy: `None` and `0` skip) helping-block role, then the one for the
support-block role.  A role deleted from the platform guild appears as
`none` - the source appends the `get_role` result with no `None` guard
(unlike events.py lines 99-101, which guard and clear the stale
reference). -/
def penaltyRoles (env : SweepEnv) (m : MemberRow) : List (Option Nat) :=
  let gld := env.guildCfg m.guild_id
  (match gld.helping_block with
   | some hb => if hb ≠ 0 then [env.getRole m.guild_id hb] else []
   | none => []) ++
  (match gld.support_block with
   | some sb => if sb ≠ 0 then [env.getRole m.guild_id sb] else []
   | none => [])

/-- Whether the `remove_roles(*rles)` call for this member raises:
discord.py reads `role.id` from every argument while building the request,
so a `None` entry in `rles` raises `AttributeError` before any platform
call is made. -/
def removeRolesRaises (env : SweepEnv) (m : MemberRow) : Bool :=
  (penaltyRoles env m).any Option.isNone

/-- Platform/store effects of one sweep tick.  A `removeRoles` effect is
only issued when every entry of `rles` resolved, so it carries the
resolved role IDs. -/
inductive SweepEffect where
  | removeRoles (guild_id user_id : Nat) (roles : List Nat)
  | commitTick
deriving DecidableEq, Repr

/-- Is this effect the `remove_roles` call for the given member? -/
def isRemoveFor (g u : Nat) : SweepEffect → Bool
  | SweepEffect.removeRoles g2 u2 _ => g2 == g && u2 == u
  | SweepEffect.commitTick => false

/-- Is this effect the per-tick `commit`? -/
def isCommitTick : SweepEffect → Bool
  | SweepEffect.commitTick => true
  | SweepEffect.removeRoles _ _ _ => false

/-- The per-member reset of `clean_status`: `status = 0`,
`status_till = None`. -/
def resetMember (m : MemberRow) : MemberRow :=
  { m with status := 0, status_till := none }

/-- The per-member loop of `clean_status` over the expired batch, in
order (routines.py lines 72-88): members whose platform guild or member
does not resolve are skipped with `continue`; for the rest the single
`remove_roles` call is issued and the reset is staged - unless a
configured penalty role failed to resolve, in which case `remove_roles`
raises `AttributeError` mid-loop and the rest of the batch is never
reached.  Returns the `remove_roles` effects issued before the loop ended
and `true` when it completed (`false` when it raised). -/
def sweepBatch (env : SweepEnv) : List MemberRow → List SweepEffect × Bool
  | [] => ([], true)
  | m :: rest =>
    if memberResolvable env m then
      if removeRolesRaises env m then ([], false)
      else
        let r := sweepBatch env rest
        (SweepEffect.removeRoles m.guild_id m.user_id
          ((penaltyRoles env m).filterMap id) :: r.1, r.2)
    else sweepBatch env rest

/-- One tick of `Routines.clean_status` (routines.py lines 62-89): fetch
the expired members and process them in order.  When the loop completes,
the one commit at the end persists every staged per-member reset; when a
`remove_roles` call raises, the exception leaves the `async with` block,
`__aexit__` rolls back and closes, so no reset persists and nothing
commits.  Returns the effect trace and the members table after the
session closes. -/
def clean_status_tick (env : SweepEnv) (members : List MemberRow) (now : Int) :
    List SweepEffect × List MemberRow :=
  let batch := sweepBatch env (get_expired_members members now)
  if batch.2 then
    (batch.1 ++ [SweepEffect.commitTick],
     members.map (fun m =>
       if memberExpired now m && memberResolvable env m then resetMember m else m))
  else (batch.1, members)

/-- Iterate the sweep for `n` ticks (each tick at the same `now`; the
claims quantify over arbitrary sweeps, and a member with NULL
`status_till` is unaffected at every `now`). -/
def iterate_sweep (env : SweepEnv) : Nat → List MemberRow → Int → List MemberRow
  | 0, members, _ => members
  | Nat.succ n, members, now =>
    iterate_sweep env n (clean_status_tick env members now).2 now

/-! ## Concrete fixtures

Concrete rows and environments used to evaluate the definitions on explicit
inputs (witnesses and counterexamples). -/

/-- A guild row with the model's default column values (models.py lines
126-187) and an any-response auto-close of one day. -/
def exGuildAnyClose : GuildRow :=
  { guild_id := 1, open_message := "Staff notes for Ticket $channel.",
    staff_team_name := "Staff Team", first_autoclose := none,
    any_autoclose := some 86400, warn_autoclose := none,
    support_block := none, helping_block := none, msg_discovery := true,
    strip_buttons := false, strip_roles := false, integrated := false }

/-- A ticket whose last recorded activity is at time 0. -/
def exTicketQuiet : Ticket :=
  { channel_id := 5, guild_id := 1, user_id := some 42, date_created := 0,
    last_response := 0, staff_note_thread := some 6, anonymous := false,
    notified := false }

/-- Configured type with the short prefix `bug`. -/
def bugType : TicketType :=
  { pfx := "bug", guild_id := 1, comping := true, comaccs := true,
    strpbuttns := true, ignore := false }

/-- Configured type with the longer prefix `bug-urgent`. -/
def bugUrgentType : TicketType :=
  { pfx := "bug-urgent", guild_id := 1, comping := false, comaccs := false,
    strpbuttns := false, ignore := false }

/-- An empty ticket store. -/
def exStoreEmpty : TicketStore := { guilds := [], tickets := [] }

/-- A ticket row for channel 5 with no recorded opener. -/
def exTicketTracked : Ticket :=
  { channel_id := 5, guild_id := 1, user_id := none, date_created := 0,
    last_response := 0, staff_note_thread := none, anonymous := false,
    notified := false }

/-- A store already tracking channel 5. -/
def exStoreTracked : TicketStore := { guilds := [1], tickets := [exTicketTracked] }

/-- An anonymous ticket opened by user 100. -/
def exTicketAnon : Ticket :=
  { channel_id := 7, guild_id := 1, user_id := some 100, date_created := 0,
    last_response := 0, staff_note_thread := some 8, anonymous := true,
    notified := false }

/-- Identity escape function (a concrete instantiation of
`discord.utils.escape_mentions`). -/
def escFix : String → String := fun s => s

/-- Platform role resolution that resolves every role ID to itself. -/
def getRoleFix : Nat → Option Nat := fun r => some r

/-- A unit of work with a single staged (never committed) mutation. -/
def exOpsMutOnly : List (SessionOp Nat) := [SessionOp.mutate (fun n => n + 1)]

/-- The `archive` ticket type with the ignore flag set. -/
def exTypeArchive : TicketType :=
  { pfx := "archive", guild_id := 1, comping := true, comaccs := true,
    strpbuttns := true, ignore := true }

/-- A store whose only configured ticket type is the ignored `archive`
type. -/
def exStoreArchive : Store :=
  { guilds := [exGuildAnyClose], tickets := [], ticket_bots := [⟨999, 1⟩],
    observers_roles := [⟨31, 1⟩], community_roles := [⟨32, 1⟩],
    community_pings := [⟨33, 1⟩], ticket_types := [exTypeArchive] }

/-- Template substitution instantiation (keeps the template text). -/
def exTemplateSub : String → String → String := fun t _ => t

/-- A guild row with both penalty roles configured. -/
def exGuildPenalty : GuildRow :=
  { guild_id := 1, open_message := "Staff notes for Ticket $channel.",
    staff_team_name := "Staff Team", first_autoclose := none,
    any_autoclose := none, warn_autoclose := none,
    support_block := some 50, helping_block := some 51, msg_discovery := true,
    strip_buttons := false, strip_roles := false, integrated := false }

/-- Sweep environment where every guild, member and role resolves. -/
def exEnv : SweepEnv :=
  { resolveGuild := fun _ => true, resolveMember := fun _ _ => true,
    getRole := fun _ r => some r,
    guildCfg := fun g => { exGuildPenalty with guild_id := g } }

/-- Sweep environment where every guild and member resolves but the
configured penalty roles have been deleted from the platform guild
(`get_role` returns `None`). -/
def exEnvStaleRoles : SweepEnv :=
  { resolveGuild := fun _ => true, resolveMember := fun _ _ => true,
    getRole := fun _ _ => none,
    guildCfg := fun g => { exGuildPenalty with guild_id := g } }

/-- A support-blocked member whose penalty expired at time 10. -/
def exMemberExpired : MemberRow :=
  { user_id := 100, guild_id := 1, status := 1, status_till := some 10 }

/-- A permanently penalised member (`status_till` NULL). -/
def exMemberPermanent : MemberRow :=
  { user_id := 101, guild_id := 1, status := 1, status_till := none }

/-- A two-member table with one expired and one permanent penalty. -/
def exMembers : List MemberRow := [exMemberExpired, exMemberPermanent]

/-! ## Helper lemmas -/

/-- A fold that overwrites its accumulator on every match computes the last
match (the first match of the reversed list), with the seed as fallback. -/
theorem foldl_choice_eq_find_reverse {α : Type} (p : α → Bool) (d : α)
    (l : List α) :
    l.foldl (fun acc x => if p x then x else acc) d =
      ((l.reverse.find? p).getD d) := by
  induction l generalizing d with
  | nil => rfl
  | cons a l ih =>
    simp only [List.foldl_cons, List.reverse_cons, List.find?_append]
    rw [ih]
    cases hf : l.reverse.find? p with
    | some x => simp [Option.or]
    | none =>
      cases hp : p a <;> simp [Option.or, List.find?, hp]

/-- `add_guild` never touches the tickets table. -/
theorem add_guild_tickets (s : TicketStore) (g : Nat) :
    (add_guild s g).tickets = s.tickets := by
  unfold add_guild
  split <;> rfl

/-- Equation for `get_ticket` when the channel already has a row. -/
theorem get_ticket_eq_found (s : TicketStore) (c g : Nat) (u nt : Option Nat)
    (now : Int) (t : Ticket)
    (h : s.tickets.find? (fun x => x.channel_id == c) = some t) :
    get_ticket s c g u nt now = (false, t, add_guild s g) := by
  simp only [get_ticket]
  rw [add_guild_tickets, h]

/-- Equation for `get_ticket` when the channel has no row yet. -/
theorem get_ticket_eq_new (s : TicketStore) (c g : Nat) (u nt : Option Nat)
    (now : Int)
    (h : s.tickets.find? (fun x => x.channel_id == c) = none) :
    get_ticket s c g u nt now =
      (true, newTicketRow c g u nt now,
       { guilds := (add_guild s g).guilds,
         tickets := s.tickets ++ [newTicketRow c g u nt now] }) := by
  simp only [get_ticket]
  rw [add_guild_tickets, h]

/-- A `get_ticket` call, whatever its arguments, preserves an existing
first match in the tickets table. -/
theorem get_ticket_preserves_found (s : TicketStore) (c : Nat) (t : Ticket)
    (a : GetTicketArgs)
    (h : s.tickets.find? (fun x => x.channel_id == c) = some t) :
    ((get_ticket s a.channel_id a.guild_id a.user_id a.staff_note a.now).2.2).tickets.find?
      (fun x => x.channel_id == c) = some t := by
  cases hf : s.tickets.find? (fun x => x.channel_id == a.channel_id) with
  | some t2 =>
    rw [get_ticket_eq_found s a.channel_id a.guild_id a.user_id a.staff_note a.now t2 hf]
    rw [add_guild_tickets]
    exact h
  | none =>
    rw [get_ticket_eq_new s a.channel_id a.guild_id a.user_id a.staff_note a.now hf]
    simp only [List.find?_append, h]
    rfl

/-- Any sequence of further `get_ticket` calls preserves an existing first
match in the tickets table. -/
theorem applyCalls_preserves_found (calls : List GetTicketArgs) :
    ∀ (s : TicketStore) (c : Nat) (t : Ticket),
    s.tickets.find? (fun x => x.channel_id == c) = some t →
    (applyCalls s calls).tickets.find? (fun x => x.channel_id == c) = some t := by
  induction calls with
  | nil => intro s c t h; exact h
  | cons a rest ih =>
    intro s c t h
    exact ih _ c t (get_ticket_preserves_found s c t a h)

/-- Equation for the toggle when the entry is present: delete, report
"removed". -/
theorem toggle_role_removed {κ : Type} [DecidableEq κ] (guilds : List Nat)
    (entries : List κ) (gid : Nat) (k : κ) (hk : k ∈ entries) :
    toggle_role guilds entries gid k =
      ("removed", (if gid ∈ guilds then guilds else guilds ++ [gid]),
        entries.erase k) := by
  simp only [toggle_role, toggle_get_or_create]
  rw [if_pos hk]
  rfl

/-- Equation for the toggle when the entry is absent: stage and keep it,
report "added". -/
theorem toggle_role_added {κ : Type} [DecidableEq κ] (guilds : List Nat)
    (entries : List κ) (gid : Nat) (k : κ) (hk : k ∉ entries) :
    toggle_role guilds entries gid k =
      ("added", (if gid ∈ guilds then guilds else guilds ++ [gid]),
        entries ++ [k]) := by
  simp only [toggle_role, toggle_get_or_create]
  rw [if_neg hk]
  rfl

/-- One toggle on a duplicate-free membership list flips the key's
membership and keeps the list duplicate-free. -/
theorem toggle_role_flip {κ : Type} [DecidableEq κ] (guilds : List Nat)
    (entries : List κ) (gid : Nat) (k : κ) (hnd : entries.Nodup) :
    ((k ∈ (toggle_role guilds entries gid k).2.2 ↔ k ∉ entries) ∧
      (toggle_role guilds entries gid k).2.2.Nodup) := by
  by_cases hk : k ∈ entries
  · rw [toggle_role_removed guilds entries gid k hk]
    constructor
    · constructor
      · intro hmem
        exact absurd (hnd.mem_erase_iff.mp hmem).1 (by simp)
      · intro habs
        exact absurd hk habs
    · exact hnd.erase k
  · rw [toggle_role_added guilds entries gid k hk]
    constructor
    · simp [hk]
    · rw [List.nodup_append]
      refine ⟨hnd, List.nodup_singleton k, ?_⟩
      intro x hx hx1
      rw [List.mem_singleton] at hx1
      subst hx1
      exact hk hx

/-- Iterating the toggle an even number of times preserves the key's
membership; an odd number flips it. -/
theorem iterate_toggle_parity {κ : Type} [DecidableEq κ] :
    ∀ (n : Nat) (guilds : List Nat) (entries : List κ) (gid : Nat) (k : κ),
    entries.Nodup →
    ((k ∈ (iterate_toggle n guilds entries gid k).2) ↔
      (if n % 2 = 0 then k ∈ entries else k ∉ entries)) := by
  intro n
  induction n with
  | zero => intro guilds entries gid k hnd; simp [iterate_toggle]
  | succ n ih =>
    intro guilds entries gid k hnd
    have hflip := toggle_role_flip guilds entries gid k hnd
    have hstep := ih (toggle_role guilds entries gid k).2.1
      (toggle_role guilds entries gid k).2.2 gid k hflip.2
    show (k ∈ (iterate_toggle n (toggle_role guilds entries gid k).2.1
      (toggle_role guilds entries gid k).2.2 gid k).2) ↔ _
    rw [hstep]
    rcases Nat.mod_two_eq_zero_or_one n with h2 | h2
    · have : (n + 1) % 2 = 1 := by omega
      rw [h2, this]
      simp only [if_true, if_false, ite_true, ite_false]
      exact hflip.1
    · have : (n + 1) % 2 = 0 := by omega
      rw [h2, this]
      simp only [if_true, if_false, ite_true, ite_false]
      constructor
      · intro hnot
        by_contra habs
        exact hnot (hflip.1.mpr habs)
      · intro hmem habs
        exact (hflip.1.mp habs) hmem

/-- Staged-only units of work never change the committed store. -/
theorem runOps_db_of_noCommit {σ : Type} (ops : List (SessionOp σ)) :
    ∀ (s : SessionState σ), (∀ op ∈ ops, isCommitOp op = false) →
    (runOps s ops).db = s.db := by
  induction ops with
  | nil => intro s _; rfl
  | cons op rest ih =>
    intro s h
    have hop : isCommitOp op = false := h op (List.mem_cons_self op rest)
    have hrest : ∀ o ∈ rest, isCommitOp o = false :=
      fun o ho => h o (List.mem_cons_of_mem op ho)
    cases op with
    | mutate f =>
      show (runOps { s with staged := f s.staged } rest).db = s.db
      rw [ih _ hrest]
    | commit => simp [isCommitOp] at hop

/-- When no resolvable member of the batch has an unresolved penalty
role, the sweep loop completes and issues one `remove_roles` call per
resolvable member, in order. -/
theorem sweepBatch_complete (env : SweepEnv) :
    ∀ (l : List MemberRow),
    (∀ m ∈ l, memberResolvable env m = true → removeRolesRaises env m = false) →
    sweepBatch env l =
      ((l.filter (memberResolvable env)).map
        (fun x => SweepEffect.removeRoles x.guild_id x.user_id
          ((penaltyRoles env x).filterMap id)), true) := by
  intro l
  induction l with
  | nil => intro _; rfl
  | cons m rest ih =>
    intro h
    have hrest : ∀ m2 ∈ rest, memberResolvable env m2 = true →
        removeRolesRaises env m2 = false :=
      fun m2 hm2 => h m2 (List.mem_cons_of_mem m hm2)
    simp only [sweepBatch, List.filter_cons]
    cases hres : memberResolvable env m
    · rw [ih hrest]
      rfl
    · have hr : removeRolesRaises env m = false :=
        h m (List.mem_cons_self m rest) hres
      rw [hr, ih hrest]
      rfl

/-- In a list whose (guild, user) keys are duplicate-free, exactly one
element carries the key of a member of the list. -/
theorem countP_member_key_unique (l : List MemberRow) (m : MemberRow)
    (hnd : (l.map (fun x => (x.guild_id, x.user_id))).Nodup) (hm : m ∈ l) :
    l.countP (fun x => x.guild_id == m.guild_id && x.user_id == m.user_id) = 1 := by
  induction l with
  | nil => exact absurd hm (List.not_mem_nil m)
  | cons a l ih =>
    rw [List.map_cons, List.nodup_cons] at hnd
    obtain ⟨hka, hnd1⟩ := hnd
    rw [List.countP_cons]
    rcases List.mem_cons.mp hm with heq | hm1
    · subst heq
      have hzero : l.countP
          (fun x => x.guild_id == m.guild_id && x.user_id == m.user_id) = 0 := by
        rw [List.countP_eq_zero]
        intro x hx hpx
        simp only [Bool.and_eq_true, beq_iff_eq] at hpx
        apply hka
        have hkey : (m.guild_id, m.user_id) = (x.guild_id, x.user_id) := by
          rw [hpx.1, hpx.2]
        rw [hkey]
        exact List.mem_map_of_mem _ hx
      rw [hzero]
      simp
    · have hpa : (a.guild_id == m.guild_id && a.user_id == m.user_id) = false := by
        by_contra hc
        rw [Bool.not_eq_false, Bool.and_eq_true, beq_iff_eq, beq_iff_eq] at hc
        apply hka
        have : (a.guild_id, a.user_id) = (m.guild_id, m.user_id) := by
          rw [hc.1, hc.2]
        rw [this]
        exact List.mem_map_of_mem _ hm1
      rw [ih hnd1 hm1, hpa]
      simp

/-! ## Claim theorems -/

/-- Claim C1 (code bug): the throttle comparison of `update_autoclose`
subtracts in the wrong order (`ticket.last_response - utcnow()`), so
whenever the ticket's last recorded activity is not in the future - which
is always the case, since `last_response` is only ever set to a current
`utcnow()` - the handler performs NO topic edit, does not advance
`last_response`, and does not commit, no matter how long ago the last
activity was.  In particular two messages six minutes apart cause zero
topic edits, not two. -/
theorem C1_autoclose_never_fires (msgCreatedAt : Int) (chanName : String)
    (chanTopic : Option String) (ticket : Ticket) (guild : GuildRow)
    (now1 now2 : Int) (h : ticket.last_response ≤ now1) :
    update_autoclose msgCreatedAt chanName chanTopic ticket guild now1 now2 =
      { topicEdits := [], ticket := ticket, committed := false } := by
  unfold update_autoclose
  split
  · rfl
  · split
    · rfl
    · split
      · rename_i h300
        exfalso
        omega
      · rfl

/-- Witness for C1: a ticket last active at time 0 and a message six
minutes later (time 360) in a tenant with a one-day any-response
auto-close produce no topic edit and no commit. -/
theorem C1_autoclose_never_fires_witness :
    exTicketQuiet.last_response ≤ 360 ∧
    update_autoclose 360 "ticket-0001" none exTicketQuiet exGuildAnyClose 360 360 =
      { topicEdits := [], ticket := exTicketQuiet, committed := false } :=
  ⟨by decide,
   C1_autoclose_never_fires 360 "ticket-0001" none exTicketQuiet exGuildAnyClose
     360 360 (by decide)⟩

/-- Counterexample for C2: with the configured types iterated as
[`bug-urgent`, `bug`] and channel `bug-urgent-42`, the loop picks the type
with prefix `bug` even though the longer prefix `bug-urgent` also matches;
reversing the registration order changes the outcome, so the match is
order-dependent, not longest-prefix. -/
theorem C2_counterexample :
    startswith "bug-urgent-42" bugUrgentType.pfx = true ∧
    bugType.pfx.length < bugUrgentType.pfx.length ∧
    resolveTicketType [bugUrgentType, bugType] "bug-urgent-42" = bugType ∧
    resolveTicketType [bugType, bugUrgentType] "bug-urgent-42" = bugUrgentType := by
  refine ⟨by decide, by decide, by decide, by decide⟩

/-- Claim C2 (amended): the type applied to a new channel is the LAST
configured type in iteration order whose prefix is a prefix of the channel
name (equivalently, the first match of the reversed list); when no
configured prefix matches, the built-in default preset
(comping, comaccs, strpbuttns true, ignore false) is used. -/
theorem C2_last_match_wins (ttypes : List TicketType) (name : String) :
    resolveTicketType ttypes name =
      ((ttypes.reverse.find? (fun tt => startswith name tt.pfx)).getD
        TicketType.default) := by
  unfold resolveTicketType
  exact foldl_choice_eq_find_reverse _ _ _

/-- Claim C3: `get_ticket` on a channel with no ticket row creates the row
from its arguments and reports `wasCreated = true`; after that, any
sequence of further `get_ticket` calls (with arbitrary arguments) still
leaves a call for the same channel reporting `wasCreated = false` and
returning the very row established by the first call. -/
theorem C3_get_ticket_idempotent (s : TicketStore) (c g : Nat)
    (u nt : Option Nat) (now : Int)
    (h : s.tickets.find? (fun x => x.channel_id == c) = none) :
    (get_ticket s c g u nt now).1 = true ∧
    (get_ticket s c g u nt now).2.1.guild_id = g ∧
    (get_ticket s c g u nt now).2.1.user_id = u ∧
    (get_ticket s c g u nt now).2.1.staff_note_thread = nt ∧
    ∀ (calls : List GetTicketArgs) (g2 : Nat) (u2 nt2 : Option Nat) (now2 : Int),
      (get_ticket (applyCalls (get_ticket s c g u nt now).2.2 calls) c g2 u2 nt2 now2).1
        = false ∧
      (get_ticket (applyCalls (get_ticket s c g u nt now).2.2 calls) c g2 u2 nt2 now2).2.1
        = (get_ticket s c g u nt now).2.1 := by
  rw [get_ticket_eq_new s c g u nt now h]
  refine ⟨rfl, rfl, rfl, rfl, ?_⟩
  intro calls g2 u2 nt2 now2
  have hfound : (s.tickets ++ [newTicketRow c g u nt now]).find?
      (fun x => x.channel_id == c) = some (newTicketRow c g u nt now) := by
    rw [List.find?_append, h]
    simp [newTicketRow]
  have hkept := applyCalls_preserves_found calls
    { guilds := (add_guild s g).guilds,
      tickets := s.tickets ++ [newTicketRow c g u nt now] }
    c (newTicketRow c g u nt now) hfound
  rw [get_ticket_eq_found _ c g2 u2 nt2 now2 _ hkept]
  exact ⟨rfl, rfl⟩

/-- Witness for C3: on the empty store, registering channel 5 reports
created; after one unrelated call for channel 77, a second call for
channel 5 with different arguments reports not-created and returns the
original row. -/
theorem C3_get_ticket_idempotent_witness :
    (get_ticket exStoreEmpty 5 1 (some 42) (some 6) 0).1 = true ∧
    (get_ticket (applyCalls (get_ticket exStoreEmpty 5 1 (some 42) (some 6) 0).2.2
        [⟨77, 2, none, none, 5⟩]) 5 9 none none 99).1 = false ∧
    (get_ticket (applyCalls (get_ticket exStoreEmpty 5 1 (some 42) (some 6) 0).2.2
        [⟨77, 2, none, none, 5⟩]) 5 9 none none 99).2.1
      = (get_ticket exStoreEmpty 5 1 (some 42) (some 6) 0).2.1 :=
  ⟨(C3_get_ticket_idempotent exStoreEmpty 5 1 (some 42) (some 6) 0 (by decide)).1,
   ((C3_get_ticket_idempotent exStoreEmpty 5 1 (some 42) (some 6) 0 (by decide)).2.2.2.2
     [⟨77, 2, none, none, 5⟩] 9 none none 99).1,
   ((C3_get_ticket_idempotent exStoreEmpty 5 1 (some 42) (some 6) 0 (by decide)).2.2.2.2
     [⟨77, 2, none, none, 5⟩] 9 none none 99).2⟩

/-- Claim C4: in a non-anonymous ticket no relay ever occurs; in an
anonymous ticket the originating user's messages and non-staff messages
are left untouched (no send, no delete), while a non-originator staff
member's message is re-sent under the staff-team name with the content
escaped and the original embeds, and the original is deleted. -/
theorem C4_handle_anon_cases (esc : String → String) (getRole : Nat → Option Nat)
    (authorId : Nat) (authorRoles : List Nat) (content : String)
    (embeds : List Nat) (ticket : Ticket) (staffRoles : List StaffRoleRow)
    (guild : GuildRow) :
    (ticket.anonymous = false →
      handle_anon esc getRole authorId authorRoles content embeds ticket staffRoles guild = []) ∧
    (ticket.user_id = some authorId →
      handle_anon esc getRole authorId authorRoles content embeds ticket staffRoles guild = []) ∧
    (holds_staff_role getRole authorRoles staffRoles = false →
      handle_anon esc getRole authorId authorRoles content embeds ticket staffRoles guild = []) ∧
    (ticket.anonymous = true → ticket.user_id ≠ some authorId →
      holds_staff_role getRole authorRoles staffRoles = true →
      handle_anon esc getRole authorId authorRoles content embeds ticket staffRoles guild =
        [AnonAction.send ("**" ++ guild.staff_team_name ++ ":** " ++ esc content) embeds,
         AnonAction.deleteOriginal]) := by
  unfold handle_anon
  refine ⟨?_, ?_, ?_, ?_⟩
  · intro ha
    rw [ha]
    rfl
  · intro hu
    cases hanon : ticket.anonymous
    · rfl
    · simp only [ite_true]
      rw [if_pos hu]
  · intro hs
    cases hanon : ticket.anonymous
    · rfl
    · simp only [ite_true]
      by_cases hu : ticket.user_id = some authorId
      · rw [if_pos hu]
      · rw [if_neg hu, hs]
        rfl
  · intro ha hu hs
    rw [ha, if_neg hu, hs]
    rfl

/-- Witness for C4: in an anonymous ticket opened by user 100, a message by
staff member 200 (holding staff role 30) is relayed under the staff-team
name and the original deleted. -/
theorem C4_handle_anon_cases_witness :
    exTicketAnon.anonymous = true ∧
    handle_anon escFix getRoleFix 200 [30] "@everyone hi" [3] exTicketAnon
      [⟨30, 1⟩] exGuildAnyClose =
      [AnonAction.send ("**" ++ exGuildAnyClose.staff_team_name ++ ":** " ++
        escFix "@everyone hi") [3],
       AnonAction.deleteOriginal] :=
  ⟨by decide,
   (C4_handle_anon_cases escFix getRoleFix 200 [30] "@everyone hi" [3]
     exTicketAnon [⟨30, 1⟩] exGuildAnyClose).2.2.2
     (by decide) (by decide) (by decide)⟩

/-- Claim C5: one toggle on a state where the key is absent adds it and
reports "added"; on a state where it is present it deletes it and reports
"removed"; an even number of invocations with the same key restores the
key's original membership and an odd number flips it (over any
duplicate-free membership table, for any entity key type). -/
theorem C5_toggle_symmetry {κ : Type} [DecidableEq κ] (guilds : List Nat)
    (entries : List κ) (gid : Nat) (k : κ) (hnd : entries.Nodup) :
    (k ∉ entries → (toggle_role guilds entries gid k).1 = "added" ∧
      k ∈ (toggle_role guilds entries gid k).2.2) ∧
    (k ∈ entries → (toggle_role guilds entries gid k).1 = "removed" ∧
      k ∉ (toggle_role guilds entries gid k).2.2) ∧
    (∀ n : Nat, n % 2 = 0 →
      (k ∈ (iterate_toggle n guilds entries gid k).2 ↔ k ∈ entries)) ∧
    (∀ n : Nat, n % 2 = 1 →
      (k ∈ (iterate_toggle n guilds entries gid k).2 ↔ k ∉ entries)) := by
  refine ⟨?_, ?_, ?_, ?_⟩
  · intro hk
    rw [toggle_role_added guilds entries gid k hk]
    exact ⟨rfl, by simp⟩
  · intro hk
    rw [toggle_role_removed guilds entries gid k hk]
    refine ⟨rfl, ?_⟩
    intro hmem
    exact absurd (hnd.mem_erase_iff.mp hmem).1 (by simp)
  · intro n hn
    rw [iterate_toggle_parity n guilds entries gid k hnd, if_pos hn]
  · intro n hn
    have : ¬ (n % 2 = 0) := by omega
    rw [iterate_toggle_parity n guilds entries gid k hnd, if_neg this]

/-- Witness for C5: toggling role 10 on the table [10, 20] removes it;
two toggles restore its membership, three flip it. -/
theorem C5_toggle_symmetry_witness :
    (toggle_role [1] ([10, 20] : List Nat) 1 10).1 = "removed" ∧
    10 ∉ (toggle_role [1] ([10, 20] : List Nat) 1 10).2.2 ∧
    (10 ∈ (iterate_toggle 2 [1] ([10, 20] : List Nat) 1 10).2 ↔
      10 ∈ ([10, 20] : List Nat)) ∧
    (10 ∈ (iterate_toggle 3 [1] ([10, 20] : List Nat) 1 10).2 ↔
      10 ∉ ([10, 20] : List Nat)) :=
  ⟨((C5_toggle_symmetry [1] [10, 20] 1 10 (by decide)).2.1 (by decide)).1,
   ((C5_toggle_symmetry [1] [10, 20] 1 10 (by decide)).2.1 (by decide)).2,
   (C5_toggle_symmetry [1] [10, 20] 1 10 (by decide)).2.2.1 2 (by decide),
   (C5_toggle_symmetry [1] [10, 20] 1 10 (by decide)).2.2.2 3 (by decide)⟩

/-- Claim C6: on an error exit the session rolls back before closing, so
the persistent store equals the committed state at the failure point (all
staged, uncommitted mutations are discarded); and no commit ever happens
implicitly - a unit of work containing no explicit `commit()` leaves the
persistent store exactly as it was at session open, on a normal exit and
on every error exit alike. -/
theorem C6_session_discipline {σ : Type} (db0 : σ) (ops : List (SessionOp σ)) :
    (∀ k : Nat, runUnit db0 ops (some k) = (runOps ⟨db0, db0⟩ (ops.take k)).db) ∧
    ((∀ op ∈ ops, isCommitOp op = false) →
      runUnit db0 ops none = db0 ∧ ∀ k : Nat, runUnit db0 ops (some k) = db0) := by
  constructor
  · intro k
    rfl
  · intro h
    constructor
    · show (runOps ⟨db0, db0⟩ ops).db = db0
      exact runOps_db_of_noCommit ops ⟨db0, db0⟩ h
    · intro k
      show (runOps ⟨db0, db0⟩ (ops.take k)).db = db0
      exact runOps_db_of_noCommit (ops.take k) ⟨db0, db0⟩
        (fun op hop => h op (List.take_subset k ops hop))

/-- Witness for C6: one staged increment on store 0, never committed,
leaves the store at 0 after a normal exit and after an error exit. -/
theorem C6_session_discipline_witness :
    runUnit (0 : Nat) exOpsMutOnly none = 0 ∧
    runUnit (0 : Nat) exOpsMutOnly (some 1) = 0 :=
  ⟨((C6_session_discipline 0 exOpsMutOnly).2 (by
      intro op hop
      rw [exOpsMutOnly] at hop
      rw [List.mem_singleton] at hop
      rw [hop]
      rfl)).1,
   ((C6_session_discipline 0 exOpsMutOnly).2 (by
      intro op hop
      rw [exOpsMutOnly] at hop
      rw [List.mem_singleton] at hop
      rw [hop]
      rfl)).2 1⟩

/-- Claim C7 (code bug): on a channel that already has a Ticket row,
`register` never commits a store mutation; with a thread argument supplied
it raises the documented "already a ticket" `InvalidLocation` - but with
the thread argument omitted it crashes first with an `AttributeError` on
`guild.legacy_threads` (a column the `Guild` model does not define), so
the documented rejection is not produced on that path. -/
theorem C7_register_no_mutation :
    register exStoreTracked 5 1 none true 0 =
      (RegOutcome.attributeErrorLegacyThreads, exStoreTracked) ∧
    register exStoreTracked 5 1 (some 99) true 0 =
      (RegOutcome.invalidLocationAlreadyTicket, exStoreTracked) := by
  constructor
  · decide
  · decide

/-- Claim C8: when the matched ticket type has the ignore flag set, the
creation workflow returns before any side effect - no platform effect is
issued, the store is unchanged and nothing is committed. -/
theorem C8_ignore_aborts (templateSub : String → String → String) (s : Store)
    (guild : GuildRow) (gldRoles : List Nat) (chanId : Nat) (chanName : String)
    (chanCreated : Int) (user : Option Nat) (thread_id : Nat)
    (history2 : List HistMsg) (now : Int)
    (h : (resolveTicketType
        (s.ticket_types.filter (fun tt => tt.guild_id == guild.guild_id))
        chanName).ignore = true) :
    ticket_creation templateSub s guild gldRoles chanId chanName chanCreated
      user thread_id history2 now = ([], s, false) := by
  simp only [ticket_creation]
  rw [if_pos h]

/-- Witness for C8: the ignored `archive` type matches channel `archive-1`,
and the workflow produces no effects, no store change and no commit. -/
theorem C8_ignore_aborts_witness :
    (resolveTicketType
      (exStoreArchive.ticket_types.filter (fun tt => tt.guild_id == 1))
      "archive-1").ignore = true ∧
    ticket_creation exTemplateSub exStoreArchive exGuildAnyClose [31, 32, 33]
      9 "archive-1" 0 (some 42) 10 [] 0 = ([], exStoreArchive, false) :=
  ⟨by decide,
   C8_ignore_aborts exTemplateSub exStoreArchive exGuildAnyClose [31, 32, 33]
     9 "archive-1" 0 (some 42) 10 [] 0 (by decide)⟩

/-- Counterexample for C9: member 100 is support-blocked, expired, and its
guild and member resolve on the platform - but the configured penalty
roles have been deleted from the guild, so `rles` contains `None` and the
unguarded `remove_roles(*rles)` (routines.py lines 81-86, no `None` guard)
raises `AttributeError`; the tick rolls back: the member keeps status 1,
no role-removal call for it is issued and - contrary to the claim's
"commits once per tick" - nothing commits. -/
theorem C9_stale_role_counterexample :
    exMemberExpired.status = 1 ∧
    memberExpired 100 exMemberExpired = true ∧
    memberResolvable exEnvStaleRoles exMemberExpired = true ∧
    (clean_status_tick exEnvStaleRoles exMembers 100).2 = exMembers ∧
    resetMember exMemberExpired ∉ (clean_status_tick exEnvStaleRoles exMembers 100).2 ∧
    (clean_status_tick exEnvStaleRoles exMembers 100).1.countP isCommitTick = 0 ∧
    (clean_status_tick exEnvStaleRoles exMembers 100).1.countP (isRemoveFor 1 100) = 0 := by
  refine ⟨rfl, by decide, by decide, by decide, by decide, by decide, by decide⟩

/-- Claim C9 (amended): provided no guild- and member-resolvable expired
member has a configured penalty role that fails to resolve (otherwise the
unguarded `remove_roles` call raises and the tick rolls back), one sweep
tick resets every expired, platform-resolvable penalised member to status
none with a cleared expiry, issues exactly one role-removal call for that
member (covering the configured penalty roles), commits exactly once, and
leaves members that fail guild/member resolution in the table unchanged
without aborting the batch. -/
theorem C9_penalty_sweep (env : SweepEnv) (members : List MemberRow)
    (now : Int) (m : MemberRow)
    (hnd : (members.map (fun x => (x.guild_id, x.user_id))).Nodup)
    (hok : ∀ m2 ∈ get_expired_members members now,
      memberResolvable env m2 = true → removeRolesRaises env m2 = false)
    (hm : m ∈ members) (hst : m.status ≠ 0)
    (hexp : memberExpired now m = true) (hres : memberResolvable env m = true) :
    resetMember m ∈ (clean_status_tick env members now).2 ∧
    (resetMember m).status = 0 ∧ (resetMember m).status_till = none ∧
    (clean_status_tick env members now).1.countP
      (isRemoveFor m.guild_id m.user_id) = 1 ∧
    (clean_status_tick env members now).1.countP isCommitTick = 1 ∧
    (∀ m2 ∈ members, memberResolvable env m2 = false →
      m2 ∈ (clean_status_tick env members now).2) := by
  have hbatch := sweepBatch_complete env (get_expired_members members now) hok
  have htick : clean_status_tick env members now =
      (((members.filter (memberExpired now)).filter (memberResolvable env)).map
          (fun x => SweepEffect.removeRoles x.guild_id x.user_id
            ((penaltyRoles env x).filterMap id))
        ++ [SweepEffect.commitTick],
       members.map (fun m2 =>
         if memberExpired now m2 && memberResolvable env m2 then resetMember m2
         else m2)) := by
    simp only [clean_status_tick]
    rw [hbatch]
    rfl
  have hfl : m ∈ (members.filter (memberExpired now)).filter (memberResolvable env) :=
    List.mem_filter.mpr ⟨List.mem_filter.mpr ⟨hm, hexp⟩, hres⟩
  have hndfl : (((members.filter (memberExpired now)).filter
      (memberResolvable env)).map (fun x => (x.guild_id, x.user_id))).Nodup := by
    apply List.Nodup.sublist _ hnd
    apply List.Sublist.map
    exact (List.filter_sublist _).trans (List.filter_sublist _)
  refine ⟨?_, rfl, rfl, ?_, ?_, ?_⟩
  · rw [htick]
    have hmap := List.mem_map_of_mem
      (fun x => if memberExpired now x && memberResolvable env x then resetMember x else x) hm
    simp only [hexp, hres, Bool.and_self, ite_true] at hmap
    exact hmap
  · rw [htick]
    show List.countP _ (_ ++ [SweepEffect.commitTick]) = 1
    rw [List.countP_append, List.countP_map]
    have h1 : List.countP
        ((isRemoveFor m.guild_id m.user_id) ∘
          (fun x => SweepEffect.removeRoles x.guild_id x.user_id
            ((penaltyRoles env x).filterMap id)))
        ((members.filter (memberExpired now)).filter (memberResolvable env)) = 1 :=
      countP_member_key_unique _ m hndfl hfl
    rw [h1]
    rfl
  · rw [htick]
    show List.countP _ (_ ++ [SweepEffect.commitTick]) = 1
    rw [List.countP_append, List.countP_map]
    have h0 : List.countP
        (isCommitTick ∘
          (fun x => SweepEffect.removeRoles x.guild_id x.user_id
            ((penaltyRoles env x).filterMap id)))
        ((members.filter (memberExpired now)).filter (memberResolvable env)) = 0 :=
      List.countP_eq_zero.mpr (fun a _ hq => Bool.false_ne_true hq)
    rw [h0]
    rfl
  · intro m2 hm2 hres2
    rw [htick]
    have hmap := List.mem_map_of_mem
      (fun x => if memberExpired now x && memberResolvable env x then resetMember x else x) hm2
    simp only [hres2, Bool.and_false, ite_false] at hmap
    exact hmap

/-- Witness for C9: member 100's support block expired at time 10; with
both penalty roles resolving, at time 100 the sweep resets it, issues
exactly one role-removal call for (guild 1, user 100) and commits once. -/
theorem C9_penalty_sweep_witness :
    resetMember exMemberExpired ∈ (clean_status_tick exEnv exMembers 100).2 ∧
    (clean_status_tick exEnv exMembers 100).1.countP (isRemoveFor 1 100) = 1 ∧
    (clean_status_tick exEnv exMembers 100).1.countP isCommitTick = 1 :=
  ⟨(C9_penalty_sweep exEnv exMembers 100 exMemberExpired (by decide) (by decide)
      (by decide) (by decide) (by decide) (by decide)).1,
   (C9_penalty_sweep exEnv exMembers 100 exMemberExpired (by decide) (by decide)
      (by decide) (by decide) (by decide) (by decide)).2.2.2.1,
   (C9_penalty_sweep exEnv exMembers 100 exMemberExpired (by decide) (by decide)
      (by decide) (by decide) (by decide) (by decide)).2.2.2.2.1⟩

/-- Claim C10: a member whose `status_till` is NULL (permanent penalty) is
never selected by the expired-members query, and the row survives every
sweep tick unchanged - after arbitrarily many ticks it is still in the
members table with its status and expiry intact. -/
theorem C10_permanent_never_swept (env : SweepEnv) (members : List MemberRow)
    (now : Int) (m : MemberRow) (n : Nat)
    (hm : m ∈ members) (hperm : m.status_till = none) :
    m ∉ get_expired_members members now ∧
    m ∈ iterate_sweep env n members now := by
  have hexp : memberExpired now m = false := by
    unfold memberExpired
    rw [hperm]
  have hstay : ∀ (j : Nat) (ms : List MemberRow), m ∈ ms →
      m ∈ iterate_sweep env j ms now := by
    intro j
    induction j with
    | zero => intro ms hms; exact hms
    | succ j ih =>
      intro ms hms
      show m ∈ iterate_sweep env j (clean_status_tick env ms now).2 now
      apply ih
      simp only [clean_status_tick]
      by_cases hb : (sweepBatch env (get_expired_members ms now)).2 = true
      · rw [if_pos hb]
        have hmap := List.mem_map_of_mem
          (fun x => if memberExpired now x && memberResolvable env x then resetMember x else x) hms
        simp only [hexp, Bool.false_and, ite_false] at hmap
        exact hmap
      · rw [if_neg hb]
        exact hms
  refine ⟨?_, hstay n members hm⟩
  intro habs
  have hq := (List.mem_filter.mp habs).2
  rw [hexp] at hq
  exact Bool.false_ne_true hq

/-- Witness for C10: the permanently penalised member 101 is not selected
by the expiry query and is still present, unchanged, after three sweep
ticks. -/
theorem C10_permanent_never_swept_witness :
    exMemberPermanent ∉ get_expired_members exMembers 100 ∧
    exMemberPermanent ∈ iterate_sweep exEnv 3 exMembers 100 :=
  ⟨(C10_permanent_never_swept exEnv exMembers 100 exMemberPermanent 3
      (by decide) (by decide)).1,
   (C10_permanent_never_swept exEnv exMembers 100 exMemberPermanent 3
      (by decide) (by decide)).2⟩

end TicketsPlus
